import Mathlib

/-
Verification of the RegRadar repository against its specification.

The development embeds, directly from the sources:
  - src/db/init/01_schema.sql        (DDL model and row-level store semantics)
  - src/frontend/app/page.tsx        (HomePage: header and response parsing)
  - src/frontend/app/login/page.tsx  (LoginPage and ImpactPage)
  - src/unnamed/part_000             (second HomePage variant)
and, where the pipeline code is absent from the repository, definitions
modelled from the specification text (marked as such in their doc comments).
-/

namespace RegRadar

/-! ## DDL-level model of src/db/init/01_schema.sql -/

/-- Column types occurring in the schema file. -/
inductive SqlType where
  | serial
  | int
  | text
  | timestamp
  | float
deriving DecidableEq, Repr

/-- One column declaration of a CREATE TABLE statement, with its flags as
written in the DDL. -/
structure Column where
  name : String
  ty : SqlType
  primaryKey : Bool := false
  notNull : Bool := false
  uniqueFlag : Bool := false
  refTable : Option (String × String) := none
  hasDefault : Bool := false
deriving DecidableEq, Repr

/-- One CREATE TABLE statement. -/
structure Table where
  name : String
  columns : List Column
deriving DecidableEq, Repr

/-- CREATE TABLE source: id SERIAL PRIMARY KEY, url TEXT NOT NULL. -/
def sourceTable : Table :=
  { name := "source"
    columns :=
      [ { name := "id", ty := .serial, primaryKey := true }
      , { name := "url", ty := .text, notNull := true } ] }

/-- CREATE TABLE document: id SERIAL PRIMARY KEY, external_id TEXT UNIQUE NOT
NULL, source_id INT REFERENCES source(id), created_at TIMESTAMP DEFAULT NOW(). -/
def documentTable : Table :=
  { name := "document"
    columns :=
      [ { name := "id", ty := .serial, primaryKey := true }
      , { name := "external_id", ty := .text, uniqueFlag := true, notNull := true }
      , { name := "source_id", ty := .int, refTable := some ("source", "id") }
      , { name := "created_at", ty := .timestamp, hasDefault := true } ] }

/-- CREATE TABLE document_version: id SERIAL PRIMARY KEY, document_id INT
REFERENCES document(id), content_hash TEXT NOT NULL, content TEXT,
created_at TIMESTAMP DEFAULT NOW(). -/
def documentVersionTable : Table :=
  { name := "document_version"
    columns :=
      [ { name := "id", ty := .serial, primaryKey := true }
      , { name := "document_id", ty := .int, refTable := some ("document", "id") }
      , { name := "content_hash", ty := .text, notNull := true }
      , { name := "content", ty := .text }
      , { name := "created_at", ty := .timestamp, hasDefault := true } ] }

/-- CREATE TABLE change_event: id SERIAL PRIMARY KEY, document_version_id INT
REFERENCES document_version(id), prev_version_id INT REFERENCES
document_version(id), diff TEXT, created_at TIMESTAMP DEFAULT NOW(). -/
def changeEventTable : Table :=
  { name := "change_event"
    columns :=
      [ { name := "id", ty := .serial, primaryKey := true }
      , { name := "document_version_id", ty := .int, refTable := some ("document_version", "id") }
      , { name := "prev_version_id", ty := .int, refTable := some ("document_version", "id") }
      , { name := "diff", ty := .text }
      , { name := "created_at", ty := .timestamp, hasDefault := true } ] }

/-- CREATE TABLE impact_assessment: id SERIAL PRIMARY KEY, document_version_id
INT REFERENCES document_version(id), summary TEXT, actions TEXT, score FLOAT,
created_at TIMESTAMP DEFAULT NOW(). -/
def impactAssessmentTable : Table :=
  { name := "impact_assessment"
    columns :=
      [ { name := "id", ty := .serial, primaryKey := true }
      , { name := "document_version_id", ty := .int, refTable := some ("document_version", "id") }
      , { name := "summary", ty := .text }
      , { name := "actions", ty := .text }
      , { name := "score", ty := .float }
      , { name := "created_at", ty := .timestamp, hasDefault := true } ] }

/-- The whole schema file, tables in DDL order. -/
def schemaTables : List Table :=
  [sourceTable, documentTable, documentVersionTable, changeEventTable, impactAssessmentTable]

/-- A foreign-key relationship extracted from the DDL. -/
structure ForeignKey where
  table : String
  column : String
  refTable : String
  refColumn : String
deriving DecidableEq, Repr

/-- All foreign keys declared anywhere in the schema, in DDL order. -/
def schemaForeignKeys : List ForeignKey :=
  schemaTables.flatMap fun t =>
    t.columns.filterMap fun c =>
      match c.refTable with
      | some (rt, rc) => some ⟨t.name, c.name, rt, rc⟩
      | none => none

/-- Look up the declaration of a column of a table of the schema. -/
def findColumn (tableName colName : String) : Option Column :=
  match schemaTables.find? (fun t => t.name = tableName) with
  | some t => t.columns.find? (fun c => c.name = colName)
  | none => none

/-! ## Row-level semantics of the schema

One record type per table; a nullable column becomes an Option field, a NOT
NULL column a plain field.  `created_at` timestamps are carried as naturals
(their value is never constrained by the DDL beyond the default). -/

structure SourceRow where
  id : Nat
  url : String
deriving DecidableEq, Repr

structure DocumentRow where
  id : Nat
  external_id : String
  source_id : Option Nat
  created_at : Nat
deriving DecidableEq, Repr

structure DocumentVersionRow where
  id : Nat
  document_id : Option Nat
  content_hash : String
  content : Option String
  created_at : Nat
deriving DecidableEq, Repr

structure ChangeEventRow where
  id : Nat
  document_version_id : Option Nat
  prev_version_id : Option Nat
  diff : Option String
  created_at : Nat
deriving DecidableEq, Repr

structure ImpactAssessmentRow where
  id : Nat
  document_version_id : Option Nat
  summary : Option String
  actions : Option String
  score : Option Int
  created_at : Nat
deriving DecidableEq, Repr

/-- A database instance over the five tables of the schema. -/
structure Store where
  sources : List SourceRow
  documents : List DocumentRow
  document_versions : List DocumentVersionRow
  change_events : List ChangeEventRow
  impact_assessments : List ImpactAssessmentRow
deriving DecidableEq, Repr

/-- No value occurs twice in the list (semantics of PRIMARY KEY and UNIQUE). -/
def distinctList {β : Type} [DecidableEq β] : List β → Bool
  | [] => true
  | x :: xs => !(xs.contains x) && distinctList xs

/-- Semantics of a (nullable) REFERENCES clause: a null value is admitted, a
non-null value must occur among the referenced ids. -/
def refOk (r : Option Nat) (ids : List Nat) : Bool :=
  match r with
  | none => true
  | some v => ids.contains v

/-- The constraints of src/db/init/01_schema.sql, checked on an instance:
primary-key uniqueness per table, the UNIQUE on document.external_id, and the
five REFERENCES clauses.  Nothing else is declared in the DDL. -/
def storeOk (s : Store) : Bool :=
  distinctList (s.sources.map (·.id)) &&
  distinctList (s.documents.map (·.id)) &&
  distinctList (s.documents.map (·.external_id)) &&
  s.documents.all (fun d => refOk d.source_id (s.sources.map (·.id))) &&
  distinctList (s.document_versions.map (·.id)) &&
  s.document_versions.all (fun v => refOk v.document_id (s.documents.map (·.id))) &&
  distinctList (s.change_events.map (·.id)) &&
  s.change_events.all (fun c =>
    refOk c.document_version_id (s.document_versions.map (·.id)) &&
    refOk c.prev_version_id (s.document_versions.map (·.id))) &&
  distinctList (s.impact_assessments.map (·.id)) &&
  s.impact_assessments.all (fun a => refOk a.document_version_id (s.document_versions.map (·.id)))

/-- The impact_assessment rows of a store that reference a given
document_version id. -/
def assessmentsFor (s : Store) (versionId : Nat) : List ImpactAssessmentRow :=
  s.impact_assessments.filter (fun a => a.document_version_id = some versionId)

/-- The change_event rows of a store that reference a given document_version
id. -/
def changeEventsFor (s : Store) (versionId : Nat) : List ChangeEventRow :=
  s.change_events.filter (fun c => c.document_version_id = some versionId)

/-! ## Frontend embedding

JSON values as parsed by `res.json()` in the pages; JavaScript truthiness as
used by the `data.items || []` expression of src/frontend/app/page.tsx. -/

inductive Json where
  | null
  | bool (b : Bool)
  | num (n : Int)
  | str (s : String)
  | arr (xs : List Json)
  | obj (fields : List (String × Json))

/-- Property access `data.k` on a parsed JSON value: a field of an object, or
undefined (none) on absence and on non-objects. -/
def jsGet (j : Json) (k : String) : Option Json :=
  match j with
  | .obj fields => (fields.find? (fun f => f.1 = k)).map (·.2)
  | _ => none

/-- JavaScript truthiness of a parsed JSON value (arrays and objects are
always truthy; null, 0, the empty string and false are falsy). -/
def jsTruthy (j : Json) : Bool :=
  match j with
  | .null => false
  | .bool b => b
  | .num n => n != 0
  | .str s => s != ""
  | .arr _ => true
  | .obj _ => true

/-- `data.items || []` from src/frontend/app/page.tsx: an absent field reads
as undefined, which is falsy, so the fallback empty array is used. -/
def itemsOrEmpty (data : Json) : Json :=
  match jsGet data "items" with
  | some v => if jsTruthy v then v else .arr []
  | none => .arr []

/-- The value passed to setChanges by the HomePage of
src/frontend/app/page.tsx for a parsed response body:
`.then((data) => setChanges(data.items || []))`. -/
def homePageChanges (body : Json) : Json :=
  itemsOrEmpty body

/-- The value passed to setChanges by the HomePage of src/unnamed/part_000
for a parsed response body: `.then(setChanges)`, the body itself. -/
def unnamedHomeChanges (body : Json) : Json :=
  body

/-- Request headers of the /v1/changes fetch in src/frontend/app/page.tsx:
`headers: \x7b 'X-API-Key': token \x7d`. -/
def homePageHeaders (token : String) : List (String × String) :=
  [("X-API-Key", token)]

/-- Request headers of the /v1/changes fetch in src/unnamed/part_000:
`headers: \x7b Authorization: Bearer token \x7d`. -/
def unnamedHomeHeaders (token : String) : List (String × String) :=
  [("Authorization", "Bearer " ++ token)]

/-- Request headers of the /v1/impacts fetch in the ImpactPage of
src/frontend/app/login/page.tsx: `headers: \x7b Authorization: Bearer token \x7d`. -/
def impactPageHeaders (token : String) : List (String × String) :=
  [("Authorization", "Bearer " ++ token)]

/-- What the LoginPage submit handler of src/frontend/app/login/page.tsx does.
The environment value NEXT_PUBLIC_APP_PASSWORD may be unset (none); the strict
equality `password === process.env.NEXT_PUBLIC_APP_PASSWORD` then fails for
every string. -/
inductive LoginOutcome where
  | granted
  | denied
deriving DecidableEq, Repr

/-- State of the browser after the submit handler: outcome, localStorage token
entry, and location. On success the handler stores the plaintext password
under the key "token" and navigates to /, otherwise it alerts and leaves the
storage untouched. -/
structure LoginState where
  outcome : LoginOutcome
  storedToken : Option String
  location : String
deriving DecidableEq, Repr

def loginSubmit (appPassword : Option String) (password : String)
    (storedToken : Option String) (location : String) : LoginState :=
  if appPassword = some password then
    { outcome := .granted, storedToken := some password, location := "/" }
  else
    { outcome := .denied, storedToken := storedToken, location := location }

/-- Observable actions the page effects perform on the browser. -/
inductive BrowserAction where
  | redirect (url : String)
  | request (url : String) (headers : List (String × String))
deriving DecidableEq, Repr

/-- The useEffect body of the HomePage in src/frontend/app/page.tsx: read the
token from localStorage; when it is absent or falsy, set location to /login
and return; otherwise fetch /v1/changes with the X-API-Key header. -/
def homePageEffect (storedToken : Option String) (apiUrl : String) : List BrowserAction :=
  match storedToken with
  | none => [.redirect "/login"]
  | some t =>
    if t = "" then [.redirect "/login"]
    else [.request (apiUrl ++ "/v1/changes") (homePageHeaders t)]

/-- The useEffect body of the HomePage in src/unnamed/part_000: identical
guard, but the fetch carries the Authorization Bearer header. -/
def unnamedHomeEffect (storedToken : Option String) (apiUrl : String) : List BrowserAction :=
  match storedToken with
  | none => [.redirect "/login"]
  | some t =>
    if t = "" then [.redirect "/login"]
    else [.request (apiUrl ++ "/v1/changes") (unnamedHomeHeaders t)]

/-- The useEffect body of the ImpactPage in src/frontend/app/login/page.tsx:
same guard, then fetch /v1/impacts/id with the Authorization Bearer header. -/
def impactPageEffect (storedToken : Option String) (apiUrl : String) (id : String) :
    List BrowserAction :=
  match storedToken with
  | none => [.redirect "/login"]
  | some t =>
    if t = "" then [.redirect "/login"]
    else [.request (apiUrl ++ "/v1/impacts/" ++ id) (impactPageHeaders t)]

/-- Whether a list of browser actions contains a network request. -/
def issuesRequest (as : List BrowserAction) : Bool :=
  as.any fun a =>
    match a with
    | .request _ _ => true
    | _ => false

/-- Reading a JSON value as the actions field of the Assessment interface of
src/frontend/app/login/page.tsx (`actions: string[]`): an array whose
elements are all strings, read in order; anything else does not fit the
interface. -/
def asStringList (j : Json) : Option (List String) :=
  match j with
  | .arr xs =>
    xs.foldr
      (fun x acc =>
        match x, acc with
        | .str s, some ss => some (s :: ss)
        | _, _ => none)
      (some [])
  | _ => none

/-! ## Change-detection pipeline, modelled from the spec

The repository ships only the schema and the frontend; the Content Store,
Version Ledger, Diff Engine and Change Detector of spec sections 4.1 to 4.4
have no code under src/.  The definitions below are therefore modelled from
the specification text and are marked as such. -/

/-- Modelled from the spec: an immutable DocumentVersion record of the
Version Ledger (section 3); ids are assigned from a per-state counter, the
monotonic sequence of section 9. -/
structure Version where
  id : Nat
  contentHash : String
  content : String
deriving DecidableEq, Repr

/-- Modelled from the spec: a ChangeEvent recording a transition (section 3);
prev_version_id is none exactly for a first version. -/
structure ChangeEv where
  versionId : Nat
  prevVersionId : Option Nat
  diff : String
deriving DecidableEq, Repr

/-- Modelled from the spec: the ledger state of one document — its versions,
newest first, the emitted change events, newest first, and the next version
id of the monotonic sequence. -/
structure DocState where
  versions : List Version
  events : List ChangeEv
  nextId : Nat
deriving DecidableEq, Repr

/-- A document with no versions yet (state NoVersion of section 4.4). -/
def emptyDoc : DocState :=
  { versions := [], events := [], nextId := 0 }

/-- Modelled from the spec: `latestVersion` of the Version Ledger (section
4.2) — the version with the greatest creation order, or none. -/
def latestVersion (st : DocState) : Option Version :=
  st.versions.head?

/-- Modelled from the spec: the Diff Engine (section 4.3).  oldContent = none
signals a first version and yields the "document added" marker; otherwise a
textual unified-diff-style representation.  Pure and deterministic. -/
def diffOf (oldContent : Option String) (newContent : String) : String :=
  match oldContent with
  | none => "document added"
  | some o => "--- before\n+++ after\n- " ++ o ++ "\n+ " ++ newContent

/-- Result of one ingestion call (section 6): unchanged, or changed with the
id of the new version. -/
inductive IngestResult where
  | unchanged
  | changed (versionId : Nat)
deriving DecidableEq, Repr

/-- Modelled from the spec: the Change Detector core algorithm of section 4.4
for a single document, with the Content Store fingerprint passed in as the
pure function fp.  Step 4: when the latest version exists and its
content_hash equals the fingerprint of the new content, return unchanged and
append nothing.  Step 5 to 7 otherwise: append an immutable version, diff
against the previous content (none for a first version) and record a
ChangeEvent whose prev_version_id is the previous latest id. -/
def ingest (fp : String → String) (st : DocState) (content : String) :
    IngestResult × DocState :=
  let hash := fp content
  match latestVersion st with
  | some latest =>
    if latest.contentHash = hash then
      (.unchanged, st)
    else
      let v : Version := { id := st.nextId, contentHash := hash, content := content }
      let e : ChangeEv :=
        { versionId := v.id
          prevVersionId := some latest.id
          diff := diffOf (some latest.content) content }
      (.changed v.id,
        { versions := v :: st.versions, events := e :: st.events, nextId := st.nextId + 1 })
  | none =>
    let v : Version := { id := st.nextId, contentHash := hash, content := content }
    let e : ChangeEv :=
      { versionId := v.id, prevVersionId := none, diff := diffOf none content }
    (.changed v.id,
      { versions := v :: st.versions, events := e :: st.events, nextId := st.nextId + 1 })

/-! ## Concrete store instances used by the claims -/

/-- A store holding one document_version and two impact_assessment rows that
both reference it; every DDL constraint is satisfied. -/
def c1Store : Store :=
  { sources := []
    documents := []
    document_versions := [{ id := 1, document_id := none, content_hash := "h1", content := none, created_at := 0 }]
    change_events := []
    impact_assessments :=
      [ { id := 1, document_version_id := some 1, summary := some "first run", actions := some "act", score := none, created_at := 0 }
      , { id := 2, document_version_id := some 1, summary := some "second run", actions := some "act", score := none, created_at := 0 } ] }

/-- A store holding one document_version, two change_event rows referencing
it, and one change_event row with a null document_version_id; every DDL
constraint is satisfied. -/
def c2Store : Store :=
  { sources := []
    documents := []
    document_versions := [{ id := 1, document_id := none, content_hash := "h1", content := none, created_at := 0 }]
    change_events :=
      [ { id := 1, document_version_id := some 1, prev_version_id := none, diff := none, created_at := 0 }
      , { id := 2, document_version_id := some 1, prev_version_id := none, diff := none, created_at := 0 }
      , { id := 3, document_version_id := none, prev_version_id := none, diff := none, created_at := 0 } ]
    impact_assessments := [] }

/-- A schema-valid store with one change_event referencing version 1. -/
def c2OkStore : Store :=
  { sources := []
    documents := []
    document_versions := [{ id := 1, document_id := none, content_hash := "h1", content := none, created_at := 0 }]
    change_events := [{ id := 1, document_version_id := some 1, prev_version_id := none, diff := none, created_at := 0 }]
    impact_assessments := [] }

/-- Two documents under two different sources sharing one external_id; every
constraint other than the UNIQUE on external_id is satisfied. -/
def c4Store : Store :=
  { sources := [{ id := 1, url := "https://a.example" }, { id := 2, url := "https://b.example" }]
    documents :=
      [ { id := 1, external_id := "EXT-1", source_id := some 1, created_at := 0 }
      , { id := 2, external_id := "EXT-1", source_id := some 2, created_at := 0 } ]
    document_versions := []
    change_events := []
    impact_assessments := [] }

def documentA : DocumentRow :=
  { id := 1, external_id := "EXT-1", source_id := some 1, created_at := 0 }

def documentB : DocumentRow :=
  { id := 2, external_id := "EXT-2", source_id := some 1, created_at := 0 }

/-- A schema-valid store with two documents under one source. -/
def c4OkStore : Store :=
  { sources := [{ id := 1, url := "https://a.example" }]
    documents := [documentA, documentB]
    document_versions := []
    change_events := []
    impact_assessments := [] }

/-! ## Helper lemmas -/

/-- distinctList is the Bool computation of Nodup. -/
theorem distinctList_nodup {β : Type} [DecidableEq β] :
    ∀ xs : List β, distinctList xs = true → xs.Nodup
  | [] => fun _ => List.nodup_nil
  | x :: xs => fun h => by
    simp only [distinctList, Bool.and_eq_true, Bool.not_eq_true'] at h
    exact List.nodup_cons.mpr ⟨by simpa using h.1, distinctList_nodup xs h.2⟩

/-- The change_event foreign-key conjunct of storeOk. -/
theorem storeOk_change_event_fk {s : Store} (h : storeOk s = true) :
    (s.change_events.all fun c =>
      refOk c.document_version_id (s.document_versions.map (·.id)) &&
      refOk c.prev_version_id (s.document_versions.map (·.id))) = true := by
  simp only [storeOk, Bool.and_eq_true] at h
  exact h.1.1.2

/-- The external_id uniqueness conjunct of storeOk. -/
theorem storeOk_external_id_distinct {s : Store} (h : storeOk s = true) :
    distinctList (s.documents.map (·.external_id)) = true := by
  simp only [storeOk, Bool.and_eq_true] at h
  exact h.1.1.1.1.1.1.1.2

/-! ## Claims about the persisted schema -/

/-- C1, counterexample: the claim says the uniqueness of
impact_assessment.document_version_id is enforced as a constraint of the
storage layout.  It is not: c1Store satisfies every constraint of
src/db/init/01_schema.sql yet holds two impact_assessment rows referencing
document_version 1. -/
theorem c1_counterexample :
    storeOk c1Store = true ∧ (assessmentsFor c1Store 1).length = 2 :=
  ⟨rfl, rfl⟩

/-- C1, amended: the storage layout does not enforce uniqueness of
impact_assessment.document_version_id — there are schema-valid stores with
two impact_assessment rows for one document_version, so two assess calls for
the same version can both insert a row as far as the store is concerned. -/
theorem c1_schema_admits_duplicate_assessments :
    ∃ s : Store, storeOk s = true ∧ 2 ≤ (assessmentsFor s 1).length :=
  ⟨c1Store, rfl, Nat.le_refl 2⟩

/-- C2, counterexample: the claim says both the referential part and the
at-most-one part of the ChangeEvent/DocumentVersion relation are enforced by
store constraints.  c2Store satisfies every constraint of the schema yet has
two change_event rows referencing document_version 1 and one change_event row
whose document_version_id is null, hence without any corresponding
document_version. -/
theorem c2_counterexample :
    storeOk c2Store = true ∧ (changeEventsFor c2Store 1).length = 2 ∧
    (c2Store.change_events.filter (fun c => c.document_version_id = none)).length = 1 :=
  ⟨rfl, rfl, rfl⟩

/-- C2, amended: every non-null change_event.document_version_id refers to an
existing document_version (this much the REFERENCES clause enforces), but the
column is neither NOT NULL nor unique, so the store admits change events with
no version and several change events for one version: the 1:1 relation is not
a store constraint. -/
theorem c2_fk_holds_but_one_to_one_not_enforced (s : Store) (h : storeOk s = true)
    (c : ChangeEventRow) (hc : c ∈ s.change_events) (v : Nat)
    (hv : c.document_version_id = some v) :
    v ∈ s.document_versions.map (·.id) ∧
    ∃ s2 : Store, storeOk s2 = true ∧ 2 ≤ (changeEventsFor s2 1).length := by
  constructor
  · have hce := storeOk_change_event_fk h
    rw [List.all_eq_true] at hce
    have hcc := hce c hc
    rw [Bool.and_eq_true] at hcc
    have h1 := hcc.1
    rw [hv] at h1
    simpa [refOk] using h1
  · exact ⟨c2Store, rfl, Nat.le_refl 2⟩

/-- C2, witness: the amended statement applied to the concrete schema-valid
store c2OkStore and its single change_event row. -/
theorem c2_fk_witness :
    1 ∈ c2OkStore.document_versions.map (·.id) ∧
    ∃ s2 : Store, storeOk s2 = true ∧ 2 ≤ (changeEventsFor s2 1).length :=
  c2_fk_holds_but_one_to_one_not_enforced c2OkStore (by decide)
    { id := 1, document_version_id := some 1, prev_version_id := none, diff := none, created_at := 0 }
    (by decide) 1 rfl

/-- C4, counterexample: the claim says two documents under different sources
may share the same external_id (per-source, not global, uniqueness).  The
schema declares external_id TEXT UNIQUE with no source qualification: c4Store,
whose two documents sit under different sources and share external_id EXT-1
while satisfying every other constraint, is rejected by the schema. -/
theorem c4_counterexample :
    c4Store.documents.map (·.source_id) = [some 1, some 2] ∧
    c4Store.documents.map (·.external_id) = ["EXT-1", "EXT-1"] ∧
    storeOk c4Store = false :=
  ⟨rfl, rfl, rfl⟩

/-- C4, amended: document.external_id is globally unique — in every
schema-valid store any two distinct document rows differ in external_id,
regardless of their source_id. -/
theorem c4_external_id_globally_unique (s : Store) (h : storeOk s = true)
    (d1 d2 : DocumentRow) (h1 : d1 ∈ s.documents) (h2 : d2 ∈ s.documents)
    (hne : d1 ≠ d2) : d1.external_id ≠ d2.external_id := by
  intro heq
  exact hne (List.inj_on_of_nodup_map
    (distinctList_nodup _ (storeOk_external_id_distinct h)) h1 h2 heq)

/-- C4, witness: the amended statement applied to the two documents of the
concrete schema-valid store c4OkStore. -/
theorem c4_witness : documentA.external_id ≠ documentB.external_id :=
  c4_external_id_globally_unique c4OkStore (by decide) documentA documentB
    (by decide) (by decide) (by decide)

/-- C5: the foreign keys extracted from the schema DDL are exactly the five
claimed ones, in order, and change_event.prev_version_id carries no NOT NULL
flag (it is nullable). -/
theorem c5_foreign_keys_exact :
    schemaForeignKeys =
      [ { table := "document", column := "source_id", refTable := "source", refColumn := "id" }
      , { table := "document_version", column := "document_id", refTable := "document", refColumn := "id" }
      , { table := "change_event", column := "document_version_id", refTable := "document_version", refColumn := "id" }
      , { table := "change_event", column := "prev_version_id", refTable := "document_version", refColumn := "id" }
      , { table := "impact_assessment", column := "document_version_id", refTable := "document_version", refColumn := "id" } ] ∧
    (findColumn "change_event" "prev_version_id").map Column.notNull = some false :=
  ⟨rfl, rfl⟩

/-! ## Claims about the ingestion pipeline (spec-modelled) -/

/-- After any ingest call the latest version of the state carries the
fingerprint of the ingested content. -/
theorem ingest_latest_hash (fp : String → String) (st : DocState) (c : String) :
    ∃ v, latestVersion (ingest fp st c).2 = some v ∧ v.contentHash = fp c := by
  simp only [ingest]
  cases h : latestVersion st with
  | none => exact ⟨_, rfl, rfl⟩
  | some latest =>
    by_cases hh : latest.contentHash = fp c
    · simp only [hh, if_true]
      exact ⟨latest, h, hh⟩
    · simp only [hh, if_false]
      exact ⟨_, rfl, rfl⟩

/-- Re-ingesting the content that was just ingested is a no-op returning
unchanged. -/
theorem ingest_ingest_same (fp : String → String) (st : DocState) (c : String) :
    ingest fp (ingest fp st c).2 c = (IngestResult.unchanged, (ingest fp st c).2) := by
  obtain ⟨v, hv, hh⟩ := ingest_latest_hash fp st c
  generalize hst : (ingest fp st c).2 = st1 at hv ⊢
  simp only [ingest, hv, hh, if_true]

/-- One ingest call either leaves the state untouched or appends exactly one
version and one change event. -/
theorem ingest_state_shape (fp : String → String) (st : DocState) (c : String) :
    (ingest fp st c).2 = st ∨
    ∃ v e, (ingest fp st c).2 =
      { versions := v :: st.versions, events := e :: st.events, nextId := st.nextId + 1 } := by
  simp only [ingest]
  cases h : latestVersion st with
  | none =>
    refine Or.inr ⟨{ id := st.nextId, contentHash := fp c, content := c },
      { versionId := st.nextId, prevVersionId := none, diff := diffOf none c }, ?_⟩
    rfl
  | some latest =>
    by_cases hh : latest.contentHash = fp c
    · exact Or.inl (by simp [hh])
    · refine Or.inr ⟨{ id := st.nextId, contentHash := fp c, content := c },
        { versionId := st.nextId, prevVersionId := some latest.id,
          diff := diffOf (some latest.content) c }, ?_⟩
      simp [hh]

/-- C3: ingesting identical content twice in a row is idempotent — the second
call returns unchanged and leaves the state exactly as the first call left
it; the first call appends at most one version and at most one change event,
and from a fresh document exactly one version and one change event exist
afterwards. -/
theorem c3_ingest_idempotent (fp : String → String) (st : DocState) (c : String) :
    (ingest fp (ingest fp st c).2 c).1 = IngestResult.unchanged ∧
    (ingest fp (ingest fp st c).2 c).2 = (ingest fp st c).2 ∧
    (ingest fp st c).2.versions.length ≤ st.versions.length + 1 ∧
    (ingest fp st c).2.events.length ≤ st.events.length + 1 ∧
    (ingest fp emptyDoc c).2.versions.length = 1 ∧
    (ingest fp emptyDoc c).2.events.length = 1 := by
  refine ⟨?_, ?_, ?_, ?_, ?_, ?_⟩
  · rw [ingest_ingest_same]
  · rw [ingest_ingest_same]
  · rcases ingest_state_shape fp st c with h | ⟨v, e, h⟩ <;> simp [h]
  · rcases ingest_state_shape fp st c with h | ⟨v, e, h⟩ <;> simp [h]
  · simp [ingest, emptyDoc, latestVersion]
  · simp [ingest, emptyDoc, latestVersion]

/-! ## Claims about the frontend -/

/-- A bare-list response body as the spec describes GET /v1/changes. -/
def c6Body : Json :=
  .arr [.obj [("id", .num 1), ("summary", .str "Rule A amended")]]

/-- A wrapper response body with an items field. -/
def c6Wrapped : Json :=
  .obj [("items", .arr [.num 1])]

/-- A bare-list response body used for the HomePage comparison. -/
def c10Body : Json :=
  .arr [.obj [("id", .num 2), ("summary", .str "Rule B repealed")]]

/-- C6, counterexample: the claim says the HomePage renders the parsed body
itself as the changes list.  The HomePage of src/frontend/app/page.tsx,
applied to a bare list body, renders the empty list instead of the body: it
reads the items field of a wrapping object. -/
theorem c6_counterexample :
    homePageChanges c6Body = Json.arr [] ∧ c6Body ≠ Json.arr [] := by
  refine ⟨rfl, ?_⟩
  intro h
  simp [c6Body] at h

/-- C6, amended: only the HomePage of src/unnamed/part_000 treats the parsed
body itself as the changes list; the HomePage of src/frontend/app/page.tsx
reads the items field of the body (rendering it when present and truthy) and
falls back to the empty list on bodies without that field. -/
theorem c6_wrapped_vs_bare (b bare v : Json) (h1 : jsGet b "items" = some v)
    (h2 : jsTruthy v = true) (h3 : jsGet bare "items" = none) :
    homePageChanges b = v ∧ homePageChanges bare = Json.arr [] ∧
    unnamedHomeChanges bare = bare := by
  refine ⟨?_, ?_, rfl⟩
  · simp [homePageChanges, itemsOrEmpty, h1, h2]
  · simp [homePageChanges, itemsOrEmpty, h3]

/-- C6, witness: the amended statement at a concrete wrapper body and a
concrete bare body. -/
theorem c6_witness :
    homePageChanges c6Wrapped = Json.arr [Json.num 1] ∧
    homePageChanges c6Body = Json.arr [] ∧
    unnamedHomeChanges c6Body = c6Body :=
  c6_wrapped_vs_bare c6Wrapped c6Body (Json.arr [Json.num 1]) rfl rfl rfl

/-- A persisted impact_assessment row as the schema admits it: actions is one
text value. -/
def c7Row : ImpactAssessmentRow :=
  { id := 1, document_version_id := some 1, summary := some "Scope widened"
    actions := some "Review section 3", score := none, created_at := 0 }

/-- C7, counterexample: the claim says the stored actions value is an ordered
sequence of strings.  The schema stores actions as a single TEXT column; the
value of a row such as c7Row, read under the Assessment interface of the
frontend (actions as an array of strings), does not parse as a string list. -/
theorem c7_counterexample :
    c7Row.actions = some "Review section 3" ∧
    asStringList (Json.str "Review section 3") = none ∧
    (findColumn "impact_assessment" "actions").map Column.ty = some SqlType.text :=
  ⟨rfl, rfl, rfl⟩

/-- C7, amended: the frontend consumes GET /v1/impacts payloads through an
interface whose actions field is an ordered array of strings, but the
persisted impact_assessment.actions column is a single TEXT value, so the row
does not supply the actions part of that shape without a conversion outside
the schema. -/
theorem c7_actions_shape_mismatch :
    (findColumn "impact_assessment" "actions").map Column.ty = some SqlType.text ∧
    asStringList (Json.arr [Json.str "Notify compliance", Json.str "Update policy"]) =
      some ["Notify compliance", "Update policy"] ∧
    asStringList (Json.str "Notify compliance, Update policy") = none :=
  ⟨rfl, rfl, rfl⟩

/-- C8: the LoginPage grants access exactly when the entered password equals
the NEXT_PUBLIC_APP_PASSWORD environment value; on success it stores the
plaintext password under the localStorage key token and navigates to the
root, and every subsequent API request of the three pages carries that stored
token in its credential header (as the X-API-Key value, or as the
Authorization value behind the Bearer marker). -/
theorem c8_login_token_flow (appPassword : Option String) (pw : String)
    (st0 : Option String) (loc : String) (t : String) :
    ((loginSubmit appPassword pw st0 loc).outcome = LoginOutcome.granted ↔
      appPassword = some pw) ∧
    (appPassword = some pw →
      (loginSubmit appPassword pw st0 loc).storedToken = some pw ∧
      (loginSubmit appPassword pw st0 loc).location = "/") ∧
    (homePageHeaders t).lookup "X-API-Key" = some t ∧
    (unnamedHomeHeaders t).lookup "Authorization" = some ("Bearer " ++ t) ∧
    (impactPageHeaders t).lookup "Authorization" = some ("Bearer " ++ t) := by
  refine ⟨?_, ?_, rfl, rfl, rfl⟩
  · by_cases h : appPassword = some pw <;> simp [loginSubmit, h]
  · intro h
    simp [loginSubmit, h]

/-- C9: with no token entry in localStorage, every one of the three page
effects redirects to /login and performs no network request. -/
theorem c9_no_fetch_without_token (tok : Option String) (apiUrl impactId : String)
    (h : tok = none) :
    homePageEffect tok apiUrl = [BrowserAction.redirect "/login"] ∧
    unnamedHomeEffect tok apiUrl = [BrowserAction.redirect "/login"] ∧
    impactPageEffect tok apiUrl impactId = [BrowserAction.redirect "/login"] ∧
    issuesRequest (homePageEffect tok apiUrl) = false ∧
    issuesRequest (unnamedHomeEffect tok apiUrl) = false ∧
    issuesRequest (impactPageEffect tok apiUrl impactId) = false := by
  subst h
  exact ⟨rfl, rfl, rfl, rfl, rfl, rfl⟩

/-- C9, witness: the statement at a concrete missing token. -/
theorem c9_witness :
    homePageEffect none "" = [BrowserAction.redirect "/login"] ∧
    unnamedHomeEffect none "" = [BrowserAction.redirect "/login"] ∧
    impactPageEffect none "" "1" = [BrowserAction.redirect "/login"] ∧
    issuesRequest (homePageEffect none "") = false ∧
    issuesRequest (unnamedHomeEffect none "") = false ∧
    issuesRequest (impactPageEffect none "" "1") = false :=
  c9_no_fetch_without_token none "" "1" rfl

/-- C10, counterexample: the claim says the two HomePage implementations send
the same headers and compute the same rendered list.  At the concrete token
secret the headers differ, and at the concrete bare-list body c10Body the
computed lists differ. -/
theorem c10_counterexample :
    homePageHeaders "secret" ≠ unnamedHomeHeaders "secret" ∧
    homePageChanges c10Body ≠ unnamedHomeChanges c10Body := by
  constructor
  · decide
  · intro h
    simp [homePageChanges, itemsOrEmpty, jsGet, unnamedHomeChanges, c10Body] at h

/-- C10, amended: the two HomePage implementations are not behaviorally
equivalent — for every token the frontend page and the unnamed page send
different credential headers, and on every non-empty bare-array body the
frontend page renders the empty list while the unnamed page renders the body;
they do agree in redirecting to /login when the token is missing. -/
theorem c10_not_equivalent (t apiUrl : String) (xs : List Json) (h : xs ≠ []) :
    homePageHeaders t ≠ unnamedHomeHeaders t ∧
    homePageChanges (Json.arr xs) = Json.arr [] ∧
    unnamedHomeChanges (Json.arr xs) = Json.arr xs ∧
    homePageChanges (Json.arr xs) ≠ unnamedHomeChanges (Json.arr xs) ∧
    homePageEffect none apiUrl = unnamedHomeEffect none apiUrl := by
  refine ⟨?_, rfl, rfl, ?_, rfl⟩
  · intro hh
    simp [homePageHeaders, unnamedHomeHeaders] at hh
  · intro hh
    simp only [homePageChanges, itemsOrEmpty, jsGet, unnamedHomeChanges] at hh
    exact h (Json.arr.inj hh).symm

/-- C10, witness: the amended statement at a concrete token and a concrete
one-element body. -/
theorem c10_witness :
    homePageHeaders "secret2" ≠ unnamedHomeHeaders "secret2" ∧
    homePageChanges (Json.arr [Json.null]) = Json.arr [] ∧
    unnamedHomeChanges (Json.arr [Json.null]) = Json.arr [Json.null] ∧
    homePageChanges (Json.arr [Json.null]) ≠ unnamedHomeChanges (Json.arr [Json.null]) ∧
    homePageEffect none "" = unnamedHomeEffect none "" :=
  c10_not_equivalent "secret2" "" [Json.null] (by simp)

end RegRadar
